import Mathlib

/-!
Shallow embedding of the "activate" library (Activate 2.0.0, TypeScript
generation): a registry that binds a callback to DOM elements so they behave
like buttons (click, Enter keydown, Space keyup), together with the
dispatcher that normalises selector / element / collection inputs.

Elements are opaque identity-comparable handles carrying only the semantic
tag the code branches on (button / anchor / input / textarea / generic).
Callbacks are opaque identity-comparable values (naturals).  Generated
wrapper closures are given fresh numeric identities by a counter threaded
through the state, mirroring the fact that each call to the wrapper factory
produces a distinct function object.  The DOM event-listener list is a
duplicate-free list of (element, event type, listener) triples with
addEventListener / removeEventListener set semantics.
-/

namespace ActivateLib

/-- Semantic tag of an element: the implementation branches on
HTMLButtonElement, HTMLAnchorElement, HTMLInputElement, HTMLTextAreaElement;
every other element behaves like the generic case. -/
inductive Tag where
  | button
  | anchor
  | inputEl
  | textarea
  | span
deriving DecidableEq, Repr

/-- An opaque, identity-comparable element handle. -/
structure Element where
  id : Nat
  tag : Tag
deriving DecidableEq, Repr

/-- DOM event types used by the library. -/
inductive EventType where
  | click
  | keydown
  | keyup
deriving DecidableEq, Repr

/-- Identity of a listener function: either a caller-supplied callback,
a generated Space wrapper, a generated Enter wrapper (each with a fresh
closure identity `wid` and the wrapped callback), or the single shared
`_preventSpacebarScroll` function. -/
inductive Listener where
  | cb (fn : Nat)
  | spacebarWrap (wid : Nat) (fn : Nat)
  | enterWrap (wid : Nat) (fn : Nat)
  | preventSpacebarScroll
deriving DecidableEq, Repr

/-- The `ActivateBinding` record: which wrapper closures (by identity)
were attached for one (element, callback) pair. -/
structure Binding where
  spacebarFn : Option Nat
  enterFn : Option Nat
deriving DecidableEq, Repr

/-- `Object.assign(tgt, src)`: fields present (`some`) in `src` overwrite,
absent fields keep the target's value. -/
def assignB (tgt src : Binding) : Binding :=
  { spacebarFn := match src.spacebarFn with | some x => some x | none => tgt.spacebarFn
    enterFn := match src.enterFn with | some x => some x | none => tgt.enterFn }

/-- JS `Map.get`. -/
def mapGet {α β : Type} [DecidableEq α] : List (α × β) → α → Option β
  | [], _ => none
  | p :: rest, k => if p.1 = k then some p.2 else mapGet rest k

/-- JS `Map.set`: replace in place if the key is present, else append. -/
def mapSet {α β : Type} [DecidableEq α] : List (α × β) → α → β → List (α × β)
  | [], k, v => [(k, v)]
  | p :: rest, k, v => if p.1 = k then (k, v) :: rest else p :: mapSet rest k v

/-- JS `Map.delete`. -/
def mapDelete {α β : Type} [DecidableEq α] : List (α × β) → α → List (α × β)
  | [], _ => []
  | p :: rest, k => if p.1 = k then mapDelete rest k else p :: mapDelete rest k

/-- The whole mutable state: the module-level `boundEvents` map
(Element to (Callback to ActivateBinding)), the DOM listener lists, and the
counter supplying fresh wrapper-closure identities. -/
structure State where
  boundEvents : List (Element × List (Nat × Binding))
  listeners : List (Element × EventType × Listener)
  nextId : Nat
deriving DecidableEq, Repr

/-- The state before any call: empty registry, no listeners. -/
def initState : State := { boundEvents := [], listeners := [], nextId := 0 }

/-- `addEventListener`: no effect when the identical (type, listener) pair
is already attached to the element, otherwise appended. -/
def addListener (st : State) (e : Element) (t : EventType) (l : Listener) : State :=
  if (e, t, l) ∈ st.listeners then st
  else { st with listeners := st.listeners ++ [(e, t, l)] }

/-- `removeEventListener`: removes the matching entry, no-op when absent. -/
def removeListener (st : State) (e : Element) (t : EventType) (l : Listener) : State :=
  { st with listeners := st.listeners.filter (fun p => !(p == (e, t, l))) }

/-- `_getElementBindings`. -/
def _getElementBindings (st : State) (e : Element) (fn : Nat) : Option Binding :=
  (mapGet st.boundEvents e).bind (fun m => mapGet m fn)

/-- `_getElementHasBindings`. -/
def _getElementHasBindings (st : State) (e : Element) : Bool :=
  (mapGet st.boundEvents e).isSome

/-- `_rememberElementBindings`: create the per-element map on first use
(holding the new binding record), then merge the new record over the
per-callback entry with `Object.assign`. -/
def _rememberElementBindings (e : Element) (fn : Nat) (b : Binding) (st : State) : State :=
  match mapGet st.boundEvents e with
  | none =>
      -- new Map([[fn, bindings]]) followed by Object.assign(bindings, bindings)
      { st with boundEvents := mapSet st.boundEvents e [(fn, b)] }
  | some elementB =>
      match mapGet elementB fn with
      | some fnB =>
          { st with boundEvents := mapSet st.boundEvents e (mapSet elementB fn (assignB fnB b)) }
      | none =>
          { st with boundEvents :=
              mapSet st.boundEvents e (mapSet elementB fn (assignB ⟨none, none⟩ b)) }

/-- `_forgetElementBindings`, exactly as written in the source: deletes the
per-callback entry of the element's map, then unconditionally deletes the
element's entire entry from `boundEvents`. -/
def _forgetElementBindings (e : Element) (fn : Nat) (st : State) : State :=
  match mapGet st.boundEvents e with
  | none => st
  | some elementB =>
      let b1 := mapSet st.boundEvents e (mapDelete elementB fn)
      { st with boundEvents := mapDelete b1 e }

/-- `_activateSingle`: attach the click listener; for non-buttons attach the
shared scroll-prevention listener on the element's first binding, a fresh
Space wrapper, and (for non-anchors) a fresh Enter wrapper, then record the
binding.  A pre-existing binding for the pair makes the call a no-op. -/
def _activateSingle (e : Element) (fn : Nat) (st : State) : State :=
  if (_getElementBindings st e fn).isSome then st
  else
    let st1 := addListener st e EventType.click (Listener.cb fn)
    if e.tag = Tag.button then st1
    else
      let st2 :=
        if _getElementHasBindings st1 e = true then st1
        else addListener st1 e EventType.keydown Listener.preventSpacebarScroll
      let w1 := st2.nextId
      let st3 := addListener { st2 with nextId := st2.nextId + 1 }
                   e EventType.keyup (Listener.spacebarWrap w1 fn)
      if e.tag = Tag.anchor then
        _rememberElementBindings e fn ⟨some w1, none⟩ st3
      else
        let w2 := st3.nextId
        let st4 := addListener { st3 with nextId := st3.nextId + 1 }
                     e EventType.keydown (Listener.enterWrap w2 fn)
        _rememberElementBindings e fn ⟨some w1, some w2⟩ st4

/-- `_deactivateSingle`: always remove the click listener; when a binding is
recorded and the element is not a button, remove the recorded wrappers
(Enter only for non-anchors), forget the record, and remove the shared
scroll-prevention listener when the element has no bindings left. -/
def _deactivateSingle (e : Element) (fn : Nat) (st : State) : State :=
  let bindings := _getElementBindings st e fn
  let st1 := removeListener st e EventType.click (Listener.cb fn)
  match bindings with
  | none => st1
  | some b =>
    if e.tag = Tag.button then st1
    else
      let st2 := match b.spacebarFn with
                 | some w => removeListener st1 e EventType.keyup (Listener.spacebarWrap w fn)
                 | none => st1
      let st3 :=
        if e.tag = Tag.anchor then st2
        else match b.enterFn with
             | some w => removeListener st2 e EventType.keydown (Listener.enterWrap w fn)
             | none => st2
      let st4 := _forgetElementBindings e fn st3
      if _getElementHasBindings st4 e = true then st4
      else removeListener st4 e EventType.keydown Listener.preventSpacebarScroll

/-- A keyboard (or pointer) event: only the `key` property matters to the
library.  `none` models an event with no key property; the empty string is
falsy in JS exactly like an absent key. -/
structure KeyEvent where
  key : Option String
deriving DecidableEq, Repr

/-- JS `String.prototype.toLowerCase` (ASCII suffices for the key names the
code compares against), written over the character list so it evaluates. -/
def jsToLowerCase (s : String) : String := ⟨s.data.map Char.toLower⟩

/-- `_isSpacebar`: `!!(e.key && (e.key === ' ' || e.key.toLowerCase() === 'spacebar'))`. -/
def _isSpacebar (e : KeyEvent) : Bool :=
  match e.key with
  | none => false
  | some s => if s = "" then false else (s == " " || jsToLowerCase s == "spacebar")

/-- `_isEnter`: `!!(e.key && (e.key.toLowerCase() === 'enter'))`. -/
def _isEnter (e : KeyEvent) : Bool :=
  match e.key with
  | none => false
  | some s => if s = "" then false else (jsToLowerCase s == "enter")

/-- Which callbacks a single listener invokes when it receives an event:
a raw callback always fires; the generated wrappers filter on the key;
the shared scroll-prevention listener never invokes a callback. -/
def listenerFires (l : Listener) (ev : KeyEvent) : List Nat :=
  match l with
  | Listener.cb f => [f]
  | Listener.spacebarWrap _ f => if _isSpacebar ev then [f] else []
  | Listener.enterWrap _ f => if _isEnter ev then [f] else []
  | Listener.preventSpacebarScroll => []

/-- The listeners attached to element `e` for event type `t`, in attach order. -/
def projET (L : List (Element × EventType × Listener)) (e : Element) (t : EventType) :
    List Listener :=
  L.filterMap (fun p => if p.1 = e ∧ p.2.1 = t then some p.2.2 else none)

/-- Concatenated invocations of a list of listeners. -/
def firesList : List Listener → KeyEvent → List Nat
  | [], _ => []
  | l :: rest, ev => listenerFires l ev ++ firesList rest ev

/-- Dispatching an event of type `t` with payload `ev` on element `e`:
the callbacks invoked, in listener order. -/
def dispatch (st : State) (e : Element) (t : EventType) (ev : KeyEvent) : List Nat :=
  firesList (projET st.listeners e t) ev

/-- Which callback a listener belongs to (the shared scroll-prevention
listener belongs to no callback). -/
def ownerOf : Listener → Option Nat
  | Listener.cb f => some f
  | Listener.spacebarWrap _ f => some f
  | Listener.enterWrap _ f => some f
  | Listener.preventSpacebarScroll => none

/-- All attached listener entries belonging to callback `f`. -/
def fnListeners (st : State) (f : Nat) : List (Element × EventType × Listener) :=
  st.listeners.filter (fun p => ownerOf p.2.2 == some f)

/-- `_preventSpacebarScroll` calls `preventDefault` exactly when the target
is neither a button nor an input/textarea and the key is Space. -/
def _preventSpacebarScrollPrevents (target : Element) (ev : KeyEvent) : Bool :=
  let isButton := target.tag = Tag.button
  let isInput := target.tag = Tag.inputEl ∨ target.tag = Tag.textarea
  (!isButton && !isInput && _isSpacebar ev)

/-- The two entry points share `_activator`; the error message is chosen by
comparing the per-element function reference. -/
inductive Which where
  | act
  | deact
deriving DecidableEq, Repr

def singleOp : Which → Element → Nat → State → State
  | Which.act => _activateSingle
  | Which.deact => _deactivateSingle

def methodName : Which → String
  | Which.act => "activate"
  | Which.deact => "deactivate"

/-- The caller-supplied target: a selector string, a single element, or a
collection-like object carrying the truthiness of its `length` property,
whether it has a `forEach` method, and its items. -/
inductive Target where
  | str (s : String)
  | elem (e : Element)
  | coll (lengthTruthy : Bool) (hasForEach : Bool) (items : List Element)
deriving Repr

/-- Apply the per-element operation to each element in order (`forEach`). -/
def runNodes (w : Which) (fn : Nat) (els : List Element) (st : State) : State :=
  els.foldl (fun acc e => singleOp w e fn acc) st

/-- `_activator`: resolve a string against the document (throwing a
DOMException naming the operation when the selector is invalid), apply the
operation to a single element directly, and to a collection only when its
`length` is truthy and it has `forEach`; anything else falls through
silently.  `doc` is the host's `querySelectorAll`, `none` meaning the
selector failed to parse.  A resolved NodeList takes the collection path:
an empty result has falsy `length`, which is the same no-op as folding over
the empty list. -/
def _activator (doc : String → Option (List Element)) (target : Target) (fn : Nat)
    (w : Which) (st : State) : Except String State :=
  match target with
  | Target.str s =>
      match doc s with
      | none =>
          Except.error (methodName w ++
            " failed because it was passed an invalid selector string: \x27" ++ s ++ "\x27")
      | some els => Except.ok (runNodes w fn els st)
  | Target.elem e => Except.ok (singleOp w e fn st)
  | Target.coll lt hf items =>
      if lt && hf then Except.ok (runNodes w fn items st) else Except.ok st

/-- `activate(elements, fn)`. -/
def activate (doc : String → Option (List Element)) (t : Target) (fn : Nat)
    (st : State) : Except String State :=
  _activator doc t fn Which.act st

/-- `deactivate(elements, fn)`. -/
def deactivate (doc : String → Option (List Element)) (t : Target) (fn : Nat)
    (st : State) : Except String State :=
  _activator doc t fn Which.deact st

/-- One top-level call as issued by a caller. -/
structure TopOp where
  w : Which
  target : Target
  fn : Nat

/-- Observable state after a top-level call: a thrown selector error leaves
the state untouched (it is raised before any per-element work). -/
def applyTop (doc : String → Option (List Element)) (st : State) (op : TopOp) : State :=
  match _activator doc op.target op.fn op.w st with
  | Except.ok st' => st'
  | Except.error _ => st

/-- The state reached from a fresh module by a sequence of top-level calls. -/
def runTop (doc : String → Option (List Element)) (ops : List TopOp) : State :=
  ops.foldl (applyTop doc) initState

/-! ### Helper lemmas about the JS `Map` model -/

theorem mapGet_mapSet_self {α β : Type} [DecidableEq α] (m : List (α × β)) (k : α) (v : β) :
    mapGet (mapSet m k v) k = some v := by
  induction m with
  | nil => simp [mapGet, mapSet]
  | cons p rest ih =>
      by_cases h : p.1 = k
      · simp [mapSet, mapGet, h]
      · simp [mapSet, mapGet, h, ih]

theorem mapGet_mapSet_ne {α β : Type} [DecidableEq α] (m : List (α × β)) (k k' : α) (v : β)
    (h : k' ≠ k) : mapGet (mapSet m k v) k' = mapGet m k' := by
  have h' : ¬ k = k' := fun hh => h hh.symm
  induction m with
  | nil => simp [mapGet, mapSet, h']
  | cons p rest ih =>
      by_cases hp : p.1 = k
      · have hp' : ¬ p.1 = k' := by rw [hp]; exact h'
        simp [mapSet, mapGet, hp, hp', h']
      · by_cases hp' : p.1 = k'
        · simp [mapSet, mapGet, hp, hp', h]
        · simp [mapSet, mapGet, hp, hp', ih]

theorem mapGet_mapDelete_self {α β : Type} [DecidableEq α] (m : List (α × β)) (k : α) :
    mapGet (mapDelete m k) k = none := by
  induction m with
  | nil => simp [mapGet, mapDelete]
  | cons p rest ih =>
      by_cases h : p.1 = k
      · simp [mapDelete, h, ih]
      · simp [mapDelete, mapGet, h, ih]

theorem mapGet_mapDelete_ne {α β : Type} [DecidableEq α] (m : List (α × β)) (k k' : α)
    (h : k' ≠ k) : mapGet (mapDelete m k) k' = mapGet m k' := by
  induction m with
  | nil => simp [mapGet, mapDelete]
  | cons p rest ih =>
      have h' : ¬ k = k' := fun hh => h hh.symm
      by_cases hp : p.1 = k
      · have hp' : ¬ p.1 = k' := by rw [hp]; exact h'
        simp [mapDelete, mapGet, hp, hp', h', ih]
      · by_cases hp' : p.1 = k'
        · simp [mapDelete, mapGet, hp, hp', h]
        · simp [mapDelete, mapGet, hp, hp', ih]

theorem mem_mapSet {α β : Type} [DecidableEq α] (m : List (α × β)) (k : α) (v : β)
    (p : α × β) (h : p ∈ mapSet m k v) : p = (k, v) ∨ p ∈ m := by
  induction m with
  | nil => simpa [mapSet] using h
  | cons q rest ih =>
      by_cases hq : q.1 = k
      · simp [mapSet, hq] at h
        rcases h with h | h
        · left; simp [h]
        · right; simp [h]
      · simp [mapSet, hq] at h
        rcases h with h | h
        · right; simp [h]
        · rcases ih h with h' | h'
          · left; exact h'
          · right; simp [h']

/-! ### Helper lemmas about the DOM listener model -/

theorem addListener_boundEvents (st : State) (e : Element) (t : EventType) (l : Listener) :
    (addListener st e t l).boundEvents = st.boundEvents := by
  unfold addListener; split <;> rfl

theorem addListener_nextId (st : State) (e : Element) (t : EventType) (l : Listener) :
    (addListener st e t l).nextId = st.nextId := by
  unfold addListener; split <;> rfl

theorem removeListener_boundEvents (st : State) (e : Element) (t : EventType) (l : Listener) :
    (removeListener st e t l).boundEvents = st.boundEvents := rfl

theorem mem_addListener (st : State) (e : Element) (t : EventType) (l : Listener)
    (x : Element × EventType × Listener) :
    x ∈ (addListener st e t l).listeners ↔ x ∈ st.listeners ∨ x = (e, t, l) := by
  unfold addListener
  split
  · rename_i h
    constructor
    · exact fun hx => Or.inl hx
    · rintro (hx | hx)
      · exact hx
      · rw [hx]; exact h
  · simp

theorem mem_removeListener (st : State) (e : Element) (t : EventType) (l : Listener)
    (x : Element × EventType × Listener) :
    x ∈ (removeListener st e t l).listeners ↔ x ∈ st.listeners ∧ x ≠ (e, t, l) := by
  unfold removeListener
  simp [List.mem_filter]

theorem addListener_idem (st : State) (e : Element) (t : EventType) (l : Listener) :
    addListener (addListener st e t l) e t l = addListener st e t l := by
  unfold addListener
  by_cases h : (e, t, l) ∈ st.listeners
  · simp [h]
  · simp [h]

theorem getB_addListener (st : State) (e : Element) (t : EventType) (l : Listener)
    (e' : Element) (f : Nat) :
    _getElementBindings (addListener st e t l) e' f = _getElementBindings st e' f := by
  unfold _getElementBindings
  rw [addListener_boundEvents]

theorem getB_removeListener (st : State) (e : Element) (t : EventType) (l : Listener)
    (e' : Element) (f : Nat) :
    _getElementBindings (removeListener st e t l) e' f = _getElementBindings st e' f := rfl

theorem hasB_addListener (st : State) (e : Element) (t : EventType) (l : Listener)
    (e' : Element) :
    _getElementHasBindings (addListener st e t l) e' = _getElementHasBindings st e' := by
  unfold _getElementHasBindings
  rw [addListener_boundEvents]

theorem remember_listeners (e : Element) (f : Nat) (b : Binding) (st : State) :
    (_rememberElementBindings e f b st).listeners = st.listeners := by
  unfold _rememberElementBindings
  split <;> first | rfl | (split <;> rfl)

theorem forget_listeners (e : Element) (f : Nat) (st : State) :
    (_forgetElementBindings e f st).listeners = st.listeners := by
  unfold _forgetElementBindings
  split <;> rfl

theorem remember_getB_self (e : Element) (f : Nat) (b : Binding) (st : State) :
    (_getElementBindings (_rememberElementBindings e f b st) e f).isSome = true := by
  unfold _rememberElementBindings _getElementBindings
  cases h : mapGet st.boundEvents e with
  | none => simp [h, mapGet_mapSet_self, mapGet]
  | some m =>
      cases h2 : mapGet m f with
      | none => simp [h, h2, mapGet_mapSet_self]
      | some fnB => simp [h, h2, mapGet_mapSet_self]

theorem act_of_isSome (st : State) (e : Element) (f : Nat)
    (h : (_getElementBindings st e f).isSome = true) : _activateSingle e f st = st := by
  simp [_activateSingle, h]

theorem act_getB_nonbutton (st : State) (e : Element) (f : Nat) (hb : e.tag ≠ Tag.button) :
    (_getElementBindings (_activateSingle e f st) e f).isSome = true := by
  cases hx : _getElementBindings st e f with
  | some b => rw [act_of_isSome st e f (by simp [hx])]; simp [hx]
  | none =>
      unfold _activateSingle
      rw [hx]
      simp only [Option.isSome_none, Bool.false_eq_true, if_false, hb, if_neg]
      split
      · exact remember_getB_self _ _ _ _
      · exact remember_getB_self _ _ _ _

/-! ### State predicates and transport lemmas for the registry invariant -/

/-- The shared Space-scroll-prevention keydown listener is attached to `e`. -/
def preventAttached (st : State) (e : Element) : Prop :=
  (e, EventType.keydown, Listener.preventSpacebarScroll) ∈ st.listeners

/-- The Registry records at least one Binding for `e` under some callback. -/
def recordsSomeBinding (st : State) (e : Element) : Prop :=
  ∃ m f b, mapGet st.boundEvents e = some m ∧ (f, b) ∈ m

theorem mapSet_ne_nil {α β : Type} [DecidableEq α] (m : List (α × β)) (k : α) (v : β) :
    mapSet m k v ≠ [] := by
  cases m with
  | nil => simp [mapSet]
  | cons p rest => unfold mapSet; split <;> simp

theorem mem_mapDelete {α β : Type} [DecidableEq α] (m : List (α × β)) (k : α) (p : α × β) :
    p ∈ mapDelete m k ↔ p ∈ m ∧ ¬ p.1 = k := by
  induction m with
  | nil => simp [mapDelete]
  | cons q rest ih =>
      by_cases h : q.1 = k
      · rw [mapDelete, if_pos h, ih]
        constructor
        · rintro ⟨hm, hk⟩; exact ⟨List.mem_cons_of_mem _ hm, hk⟩
        · rintro ⟨hm, hk⟩
          rcases List.mem_cons.mp hm with rfl | hm'
          · exact absurd h hk
          · exact ⟨hm', hk⟩
      · rw [mapDelete, if_neg h]
        constructor
        · intro hm
          rcases List.mem_cons.mp hm with rfl | hm'
          · exact ⟨List.mem_cons_self _ _, h⟩
          · exact ⟨List.mem_cons_of_mem _ (ih.mp hm').1, (ih.mp hm').2⟩
        · rintro ⟨hm, hk⟩
          rcases List.mem_cons.mp hm with rfl | hm'
          · exact List.mem_cons_self _ _
          · exact List.mem_cons_of_mem _ (ih.mpr ⟨hm', hk⟩)

theorem mapGet_mem {α β : Type} [DecidableEq α] (m : List (α × β)) (k : α) (v : β)
    (h : mapGet m k = some v) : (k, v) ∈ m := by
  induction m with
  | nil => simp [mapGet] at h
  | cons q rest ih =>
      rw [mapGet] at h
      by_cases hq : q.1 = k
      · rw [if_pos hq] at h
        have : v = q.2 := by injection h with h'; exact h'.symm
        subst this
        rw [← hq]
        exact List.mem_cons_self _ _
      · rw [if_neg hq] at h
        exact List.mem_cons_of_mem _ (ih h)

theorem hasB_removeListener (st : State) (e : Element) (t : EventType) (l : Listener)
    (e' : Element) :
    _getElementHasBindings (removeListener st e t l) e' = _getElementHasBindings st e' := rfl

theorem hasB_congr {st1 st2 : State} (h : st1.boundEvents = st2.boundEvents) (e : Element) :
    _getElementHasBindings st1 e = _getElementHasBindings st2 e := by
  unfold _getElementHasBindings; rw [h]

theorem hasB_remember_self (e : Element) (f : Nat) (b : Binding) (st : State) :
    _getElementHasBindings (_rememberElementBindings e f b st) e = true := by
  unfold _rememberElementBindings _getElementHasBindings
  cases h : mapGet st.boundEvents e with
  | none => simp [mapGet_mapSet_self]
  | some m => cases h2 : mapGet m f <;> simp [h2, mapGet_mapSet_self]

theorem hasB_remember_ne (e : Element) (f : Nat) (b : Binding) (st : State)
    (e' : Element) (hne : e' ≠ e) :
    _getElementHasBindings (_rememberElementBindings e f b st) e'
      = _getElementHasBindings st e' := by
  unfold _rememberElementBindings _getElementHasBindings
  cases h : mapGet st.boundEvents e with
  | none =>
      dsimp only
      rw [mapGet_mapSet_ne _ _ _ _ hne]
  | some m =>
      cases h2 : mapGet m f with
      | none =>
          simp only [h2]
          rw [mapGet_mapSet_ne _ _ _ _ hne]
      | some fnB =>
          simp only [h2]
          rw [mapGet_mapSet_ne _ _ _ _ hne]

theorem hasB_forget_self (e : Element) (f : Nat) (st : State) :
    _getElementHasBindings (_forgetElementBindings e f st) e = false := by
  unfold _forgetElementBindings _getElementHasBindings
  cases h : mapGet st.boundEvents e with
  | none => rw [h]; rfl
  | some m => simp [mapGet_mapDelete_self]

theorem hasB_forget_ne (e : Element) (f : Nat) (st : State) (e' : Element) (hne : e' ≠ e) :
    _getElementHasBindings (_forgetElementBindings e f st) e'
      = _getElementHasBindings st e' := by
  unfold _forgetElementBindings _getElementHasBindings
  cases h : mapGet st.boundEvents e with
  | none => rfl
  | some m => rw [mapGet_mapDelete_ne _ _ _ hne, mapGet_mapSet_ne _ _ _ _ hne]

theorem preventAttached_setNextId (st : State) (k : Nat) (e' : Element) :
    preventAttached { st with nextId := k } e' ↔ preventAttached st e' := Iff.rfl

theorem hasB_setNextId (st : State) (k : Nat) (e' : Element) :
    _getElementHasBindings { st with nextId := k } e' = _getElementHasBindings st e' := rfl

theorem preventAttached_add_cb (st : State) (e : Element) (t : EventType) (f : Nat)
    (e' : Element) :
    preventAttached (addListener st e t (Listener.cb f)) e' ↔ preventAttached st e' := by
  unfold preventAttached
  rw [mem_addListener]
  constructor
  · rintro (h | h)
    · exact h
    · exact absurd (congrArg (fun p => p.2.2) h) (by simp)
  · exact Or.inl

theorem preventAttached_add_sw (st : State) (e : Element) (t : EventType) (w f : Nat)
    (e' : Element) :
    preventAttached (addListener st e t (Listener.spacebarWrap w f)) e'
      ↔ preventAttached st e' := by
  unfold preventAttached
  rw [mem_addListener]
  constructor
  · rintro (h | h)
    · exact h
    · exact absurd (congrArg (fun p => p.2.2) h) (by simp)
  · exact Or.inl

theorem preventAttached_add_ew (st : State) (e : Element) (t : EventType) (w f : Nat)
    (e' : Element) :
    preventAttached (addListener st e t (Listener.enterWrap w f)) e'
      ↔ preventAttached st e' := by
  unfold preventAttached
  rw [mem_addListener]
  constructor
  · rintro (h | h)
    · exact h
    · exact absurd (congrArg (fun p => p.2.2) h) (by simp)
  · exact Or.inl

theorem preventAttached_add_prevent (st : State) (e : Element) (e' : Element) :
    preventAttached (addListener st e EventType.keydown Listener.preventSpacebarScroll) e'
      ↔ (e' = e ∨ preventAttached st e') := by
  unfold preventAttached
  rw [mem_addListener]
  constructor
  · rintro (h | h)
    · exact Or.inr h
    · exact Or.inl (congrArg (fun p => p.1) h)
  · rintro (h | h)
    · subst h; exact Or.inr rfl
    · exact Or.inl h

theorem preventAttached_remove_cb (st : State) (e : Element) (t : EventType) (f : Nat)
    (e' : Element) :
    preventAttached (removeListener st e t (Listener.cb f)) e' ↔ preventAttached st e' := by
  unfold preventAttached
  rw [mem_removeListener]
  constructor
  · exact fun h => h.1
  · exact fun h => ⟨h, by simp⟩

theorem preventAttached_remove_sw (st : State) (e : Element) (t : EventType) (w f : Nat)
    (e' : Element) :
    preventAttached (removeListener st e t (Listener.spacebarWrap w f)) e'
      ↔ preventAttached st e' := by
  unfold preventAttached
  rw [mem_removeListener]
  constructor
  · exact fun h => h.1
  · exact fun h => ⟨h, by simp⟩

theorem preventAttached_remove_ew (st : State) (e : Element) (t : EventType) (w f : Nat)
    (e' : Element) :
    preventAttached (removeListener st e t (Listener.enterWrap w f)) e'
      ↔ preventAttached st e' := by
  unfold preventAttached
  rw [mem_removeListener]
  constructor
  · exact fun h => h.1
  · exact fun h => ⟨h, by simp⟩

theorem preventAttached_remove_prevent_self (st : State) (e : Element) :
    ¬ preventAttached
        (removeListener st e EventType.keydown Listener.preventSpacebarScroll) e := by
  unfold preventAttached
  rw [mem_removeListener]
  rintro ⟨-, h⟩
  exact h rfl

theorem preventAttached_remove_prevent_ne (st : State) (e : Element) (e' : Element)
    (hne : e' ≠ e) :
    preventAttached (removeListener st e EventType.keydown Listener.preventSpacebarScroll) e'
      ↔ preventAttached st e' := by
  unfold preventAttached
  rw [mem_removeListener]
  constructor
  · exact fun h => h.1
  · exact fun h => ⟨h, by simp [hne]⟩

theorem preventAttached_remember (e : Element) (f : Nat) (b : Binding) (st : State)
    (e' : Element) :
    preventAttached (_rememberElementBindings e f b st) e' ↔ preventAttached st e' := by
  unfold preventAttached
  rw [remember_listeners]

theorem preventAttached_forget (e : Element) (f : Nat) (st : State) (e' : Element) :
    preventAttached (_forgetElementBindings e f st) e' ↔ preventAttached st e' := by
  unfold preventAttached
  rw [forget_listeners]

/-- The registry invariant: the shared scroll-prevention listener is
attached to exactly the elements with a registry entry, and every registry
entry holds at least one per-callback Binding. -/
def Inv (st : State) : Prop :=
  (∀ e, preventAttached st e ↔ _getElementHasBindings st e = true)
  ∧ ∀ p ∈ st.boundEvents, p.2 ≠ []

theorem inv_init : Inv initState := by
  constructor
  · intro e
    simp [preventAttached, initState, _getElementHasBindings, mapGet]
  · intro p hp
    simp [initState] at hp

theorem wf_remember (e : Element) (f : Nat) (b : Binding) (st : State)
    (hW : ∀ p ∈ st.boundEvents, p.2 ≠ []) :
    ∀ p ∈ (_rememberElementBindings e f b st).boundEvents, p.2 ≠ [] := by
  intro p hp
  unfold _rememberElementBindings at hp
  cases h : mapGet st.boundEvents e with
  | none =>
      rw [h] at hp
      rcases mem_mapSet _ _ _ _ hp with h' | h'
      · rw [h']; simp
      · exact hW p h'
  | some m =>
      rw [h] at hp
      cases h2 : mapGet m f with
      | none =>
          simp only [h2] at hp
          rcases mem_mapSet _ _ _ _ hp with h' | h'
          · rw [h']; exact mapSet_ne_nil _ _ _
          · exact hW p h'
      | some fnB =>
          simp only [h2] at hp
          rcases mem_mapSet _ _ _ _ hp with h' | h'
          · rw [h']; exact mapSet_ne_nil _ _ _
          · exact hW p h'

theorem wf_forget (e : Element) (f : Nat) (st : State)
    (hW : ∀ p ∈ st.boundEvents, p.2 ≠ []) :
    ∀ p ∈ (_forgetElementBindings e f st).boundEvents, p.2 ≠ [] := by
  intro p hp
  unfold _forgetElementBindings at hp
  cases h : mapGet st.boundEvents e with
  | none => rw [h] at hp; exact hW p hp
  | some m =>
      rw [h] at hp
      have hp' := (mem_mapDelete _ _ _).mp hp
      rcases mem_mapSet _ _ _ _ hp'.1 with h' | h'
      · exact absurd (congrArg (fun q => q.1) h') hp'.2
      · exact hW p h'

/-- Auxiliary: after a successful bind on a non-button whose element already
had a registry entry, the recorded state keeps the invariant. -/
theorem inv_remember_had (st stX : State) (e : Element) (f : Nat) (b : Binding)
    (hInv : Inv st) (hh : _getElementHasBindings st e = true)
    (hp : ∀ e', preventAttached stX e' ↔ preventAttached st e')
    (hbE : stX.boundEvents = st.boundEvents) :
    Inv (_rememberElementBindings e f b stX) := by
  constructor
  · intro e'
    rw [preventAttached_remember, hp e']
    by_cases he : e' = e
    · subst he
      rw [hasB_remember_self]
      exact iff_of_true ((hInv.1 e').mpr hh) rfl
    · rw [hasB_remember_ne _ _ _ _ _ he, hasB_congr hbE]
      exact hInv.1 e'
  · exact wf_remember _ _ _ _ (by rw [hbE]; exact hInv.2)

/-- Auxiliary: after a successful bind on a non-button whose element had no
registry entry (so the shared scroll-prevention listener was attached to it
in this very call), the recorded state keeps the invariant. -/
theorem inv_remember_new (st stX : State) (e : Element) (f : Nat) (b : Binding)
    (hInv : Inv st)
    (hp : ∀ e', preventAttached stX e' ↔ (e' = e ∨ preventAttached st e'))
    (hbE : stX.boundEvents = st.boundEvents) :
    Inv (_rememberElementBindings e f b stX) := by
  constructor
  · intro e'
    rw [preventAttached_remember, hp e']
    by_cases he : e' = e
    · subst he
      rw [hasB_remember_self]
      exact iff_of_true (Or.inl rfl) rfl
    · rw [hasB_remember_ne _ _ _ _ _ he, hasB_congr hbE]
      constructor
      · rintro (h | h)
        · exact absurd h he
        · exact (hInv.1 e').mp h
      · exact fun h => Or.inr ((hInv.1 e').mpr h)
  · exact wf_remember _ _ _ _ (by rw [hbE]; exact hInv.2)

/-- Auxiliary: the tail of a successful unbind — forget the record, then
remove the shared scroll-prevention listener if no binding remains — keeps
the invariant, for any intermediate state whose prevent-listener attachment
and registry agree with the starting state's. -/
theorem inv_forget_prevent (st st3 : State) (e : Element) (f : Nat)
    (hInv : Inv st)
    (hp : ∀ e', preventAttached st3 e' ↔ preventAttached st e')
    (hbE : st3.boundEvents = st.boundEvents) :
    Inv (if _getElementHasBindings (_forgetElementBindings e f st3) e = true
         then _forgetElementBindings e f st3
         else removeListener (_forgetElementBindings e f st3) e EventType.keydown
                Listener.preventSpacebarScroll) := by
  rw [if_neg (by rw [hasB_forget_self]; simp)]
  constructor
  · intro e'
    by_cases he : e' = e
    · subst he
      refine iff_of_false (preventAttached_remove_prevent_self _ _) ?_
      rw [hasB_removeListener, hasB_forget_self]
      simp
    · rw [preventAttached_remove_prevent_ne _ _ _ he, preventAttached_forget, hp e',
          hasB_removeListener, hasB_forget_ne _ _ _ _ he, hasB_congr hbE]
      exact hInv.1 e'
  · intro p hpmem
    exact wf_forget e f st3 (by rw [hbE]; exact hInv.2) p hpmem

/-- `_activateSingle` preserves the registry invariant. -/
theorem inv_act (e : Element) (f : Nat) (st : State) (h : Inv st) :
    Inv (_activateSingle e f st) := by
  cases hx : _getElementBindings st e f with
  | some b => rw [act_of_isSome st e f (by simp [hx])]; exact h
  | none =>
      unfold _activateSingle
      rw [hx]
      simp only [Option.isSome_none, Bool.false_eq_true, if_false]
      by_cases hb : e.tag = Tag.button
      · rw [if_pos hb]
        constructor
        · intro e'
          rw [preventAttached_add_cb, hasB_addListener]
          exact h.1 e'
        · rw [addListener_boundEvents]
          exact h.2
      · rw [if_neg hb]
        by_cases hh :
            _getElementHasBindings (addListener st e EventType.click (Listener.cb f)) e = true
        · simp only [hh, if_true]
          have hh' : _getElementHasBindings st e = true := by
            rw [← hasB_addListener st e EventType.click (Listener.cb f) e]
            exact hh
          by_cases ha : e.tag = Tag.anchor
          · rw [if_pos ha]
            refine inv_remember_had st _ e f _ h hh' (fun e' => ?_) ?_
            · rw [preventAttached_add_sw, preventAttached_setNextId, preventAttached_add_cb]
            · rw [addListener_boundEvents]
              show (addListener st e EventType.click (Listener.cb f)).boundEvents = _
              rw [addListener_boundEvents]
          · rw [if_neg ha]
            refine inv_remember_had st _ e f _ h hh' (fun e' => ?_) ?_
            · rw [preventAttached_add_ew, preventAttached_setNextId, preventAttached_add_sw,
                  preventAttached_setNextId, preventAttached_add_cb]
            · rw [addListener_boundEvents]
              show (addListener _ e EventType.keyup (Listener.spacebarWrap _ f)).boundEvents = _
              rw [addListener_boundEvents]
              show (addListener st e EventType.click (Listener.cb f)).boundEvents = _
              rw [addListener_boundEvents]
        · have hhf :
              _getElementHasBindings (addListener st e EventType.click (Listener.cb f)) e
                = false := Bool.eq_false_iff.mpr hh
          simp only [hhf, Bool.false_eq_true, if_false]
          by_cases ha : e.tag = Tag.anchor
          · rw [if_pos ha]
            refine inv_remember_new st _ e f _ h (fun e' => ?_) ?_
            · rw [preventAttached_add_sw, preventAttached_setNextId,
                  preventAttached_add_prevent, preventAttached_add_cb]
            · rw [addListener_boundEvents]
              show (addListener _ e EventType.keydown Listener.preventSpacebarScroll).boundEvents
                     = _
              rw [addListener_boundEvents]
              show (addListener st e EventType.click (Listener.cb f)).boundEvents = _
              rw [addListener_boundEvents]
          · rw [if_neg ha]
            refine inv_remember_new st _ e f _ h (fun e' => ?_) ?_
            · rw [preventAttached_add_ew, preventAttached_setNextId, preventAttached_add_sw,
                  preventAttached_setNextId, preventAttached_add_prevent,
                  preventAttached_add_cb]
            · rw [addListener_boundEvents]
              show (addListener _ e EventType.keyup (Listener.spacebarWrap _ f)).boundEvents = _
              rw [addListener_boundEvents]
              show (addListener _ e EventType.keydown Listener.preventSpacebarScroll).boundEvents
                     = _
              rw [addListener_boundEvents]
              show (addListener st e EventType.click (Listener.cb f)).boundEvents = _
              rw [addListener_boundEvents]

/-- `_deactivateSingle` preserves the registry invariant. -/
theorem inv_deact (e : Element) (f : Nat) (st : State) (h : Inv st) :
    Inv (_deactivateSingle e f st) := by
  unfold _deactivateSingle
  cases hx : _getElementBindings st e f with
  | none =>
      constructor
      · intro e'
        rw [preventAttached_remove_cb, hasB_removeListener]
        exact h.1 e'
      · exact h.2
  | some b =>
      dsimp only
      by_cases hb : e.tag = Tag.button
      · rw [if_pos hb]
        constructor
        · intro e'
          rw [preventAttached_remove_cb, hasB_removeListener]
          exact h.1 e'
        · exact h.2
      · rw [if_neg hb]
        by_cases ha : e.tag = Tag.anchor
        · rw [if_pos ha]
          cases hsw : b.spacebarFn with
          | none =>
              refine inv_forget_prevent st _ e f h (fun e' => ?_) rfl
              rw [preventAttached_remove_cb]
          | some w =>
              refine inv_forget_prevent st _ e f h (fun e' => ?_) rfl
              rw [preventAttached_remove_sw, preventAttached_remove_cb]
        · rw [if_neg ha]
          cases hsw : b.spacebarFn with
          | none =>
              cases hew : b.enterFn with
              | none =>
                  refine inv_forget_prevent st _ e f h (fun e' => ?_) rfl
                  rw [preventAttached_remove_cb]
              | some w2 =>
                  refine inv_forget_prevent st _ e f h (fun e' => ?_) rfl
                  rw [preventAttached_remove_ew, preventAttached_remove_cb]
          | some w =>
              cases hew : b.enterFn with
              | none =>
                  refine inv_forget_prevent st _ e f h (fun e' => ?_) rfl
                  rw [preventAttached_remove_sw, preventAttached_remove_cb]
              | some w2 =>
                  refine inv_forget_prevent st _ e f h (fun e' => ?_) rfl
                  rw [preventAttached_remove_ew, preventAttached_remove_sw,
                      preventAttached_remove_cb]

theorem inv_singleOp (w : Which) (e : Element) (f : Nat) (st : State) (h : Inv st) :
    Inv (singleOp w e f st) := by
  cases w with
  | act => exact inv_act e f st h
  | deact => exact inv_deact e f st h

theorem inv_runNodes (w : Which) (f : Nat) (els : List Element) (st : State) (h : Inv st) :
    Inv (runNodes w f els st) := by
  induction els generalizing st with
  | nil => exact h
  | cons e rest ih => exact ih _ (inv_singleOp w e f st h)

theorem inv_applyTop (doc : String → Option (List Element)) (st : State) (op : TopOp)
    (h : Inv st) : Inv (applyTop doc st op) := by
  obtain ⟨w, t, f⟩ := op
  cases t with
  | str s =>
      cases hd : doc s with
      | none => simp only [applyTop, _activator, hd]; exact h
      | some els => simp only [applyTop, _activator, hd]; exact inv_runNodes w f els st h
  | elem e => exact inv_singleOp w e f st h
  | coll lt hf items =>
      simp only [applyTop, _activator]
      by_cases hc : (lt && hf) = true
      · rw [if_pos hc]
        exact inv_runNodes w f items st h
      · rw [if_neg hc]
        exact h

theorem inv_runTop (doc : String → Option (List Element)) (ops : List TopOp) :
    Inv (runTop doc ops) := by
  unfold runTop
  have : ∀ (l : List TopOp) (st : State), Inv st → Inv (l.foldl (applyTop doc) st) := by
    intro l
    induction l with
    | nil => exact fun st h => h
    | cons op rest ih => exact fun st h => ih _ (inv_applyTop doc st op h)
  exact this ops initState inv_init

/-! ### C1 -/

/-- C1: evaluation of the code at the failing input.  With E a generic
element and distinct callbacks 0 and 1, after bind(E,0); bind(E,1), callback
1's Binding is recorded; but unbind(E,0) erases E's entire registry entry,
so callback 1's Binding is gone — contradicting the claim that only the
per-callback entry for callback 0 is removed and E's per-element record
survives while callback 1 remains bound. -/
theorem c1_unbind_erases_sibling_record :
    (_getElementBindings
        (_activateSingle ⟨0, Tag.span⟩ 1 (_activateSingle ⟨0, Tag.span⟩ 0 initState))
        ⟨0, Tag.span⟩ 1).isSome = true
    ∧ _getElementBindings
        (_deactivateSingle ⟨0, Tag.span⟩ 0
          (_activateSingle ⟨0, Tag.span⟩ 1 (_activateSingle ⟨0, Tag.span⟩ 0 initState)))
        ⟨0, Tag.span⟩ 1 = none
    ∧ mapGet (_deactivateSingle ⟨0, Tag.span⟩ 0
          (_activateSingle ⟨0, Tag.span⟩ 1
            (_activateSingle ⟨0, Tag.span⟩ 0 initState))).boundEvents ⟨0, Tag.span⟩
        = none := by
  decide

/-! ### C3 -/

/-- C3 counterexample: binding a callback to a button-tagged element records
nothing in the Registry — `_rememberElementBindings` is only reached on the
non-button branch — so the subsequent existence check fails, contrary to the
claim that a Binding with no wrappers is recorded and the check succeeds.
Only the click listener is attached. -/
theorem c3_counterexample_button_records_nothing :
    _getElementBindings (_activateSingle ⟨0, Tag.button⟩ 0 initState) ⟨0, Tag.button⟩ 0 = none
    ∧ (_activateSingle ⟨0, Tag.button⟩ 0 initState).boundEvents = []
    ∧ (_activateSingle ⟨0, Tag.button⟩ 0 initState).listeners
        = [(⟨0, Tag.button⟩, EventType.click, Listener.cb 0)] := by
  decide

/-- C3 (amended): for a button-like element with no existing binding,
bind(E,F) attaches only a click listener and populates no wrapper fields,
but records no Binding either: the Registry is left unchanged and a
subsequent existence check for (E,F) still fails. -/
theorem c3_button_attaches_click_only (st : State) (e : Element) (f : Nat)
    (hb : e.tag = Tag.button) (h : _getElementBindings st e f = none) :
    _activateSingle e f st = addListener st e EventType.click (Listener.cb f)
    ∧ (_activateSingle e f st).boundEvents = st.boundEvents
    ∧ _getElementBindings (_activateSingle e f st) e f = none := by
  have h1 : _activateSingle e f st = addListener st e EventType.click (Listener.cb f) := by
    simp [_activateSingle, h, hb]
  refine ⟨h1, ?_, ?_⟩
  · rw [h1, addListener_boundEvents]
  · rw [h1, getB_addListener, h]

/-- C3 witness: the amended theorem at a concrete button element. -/
theorem c3_button_attaches_click_only_witness :
    Element.tag ⟨1, Tag.button⟩ = Tag.button
    ∧ _getElementBindings initState ⟨1, Tag.button⟩ 0 = none
    ∧ (_activateSingle ⟨1, Tag.button⟩ 0 initState
        = addListener initState ⟨1, Tag.button⟩ EventType.click (Listener.cb 0)
      ∧ (_activateSingle ⟨1, Tag.button⟩ 0 initState).boundEvents = initState.boundEvents
      ∧ _getElementBindings (_activateSingle ⟨1, Tag.button⟩ 0 initState) ⟨1, Tag.button⟩ 0
          = none) :=
  ⟨rfl, rfl, c3_button_attaches_click_only initState ⟨1, Tag.button⟩ 0 rfl rfl⟩

/-! ### C6 -/

/-- C6: if a Binding already exists for (E,F), bind(E,F) is a no-op (state
unchanged, so no listener of any type is attached and the Registry is
untouched); consequently bind(E,F) twice equals bind(E,F) once — each
listener type is attached at most once. -/
theorem c6_rebind_is_noop (st : State) (e : Element) (f : Nat) :
    ((_getElementBindings st e f).isSome = true → _activateSingle e f st = st)
    ∧ _activateSingle e f (_activateSingle e f st) = _activateSingle e f st := by
  refine ⟨act_of_isSome st e f, ?_⟩
  by_cases hb : e.tag = Tag.button
  · cases hx : _getElementBindings st e f with
    | some b =>
        rw [act_of_isSome st e f (by simp [hx])]
        exact act_of_isSome st e f (by simp [hx])
    | none =>
        have h1 : _activateSingle e f st = addListener st e EventType.click (Listener.cb f) :=
          (c3_button_attaches_click_only st e f hb hx).1
        have h2 : _getElementBindings (_activateSingle e f st) e f = none :=
          (c3_button_attaches_click_only st e f hb hx).2.2
        have h3 : _activateSingle e f (_activateSingle e f st)
            = addListener (_activateSingle e f st) e EventType.click (Listener.cb f) :=
          (c3_button_attaches_click_only (_activateSingle e f st) e f hb h2).1
        rw [h3, h1, addListener_idem]
  · exact act_of_isSome _ e f (act_getB_nonbutton st e f hb)

/-- C6 witness: the no-op clause at a concrete state that has a binding. -/
theorem c6_rebind_is_noop_witness :
    (_getElementBindings (_activateSingle ⟨0, Tag.span⟩ 0 initState) ⟨0, Tag.span⟩ 0).isSome
        = true
    ∧ _activateSingle ⟨0, Tag.span⟩ 0 (_activateSingle ⟨0, Tag.span⟩ 0 initState)
        = _activateSingle ⟨0, Tag.span⟩ 0 initState :=
  ⟨by decide, (c6_rebind_is_noop (_activateSingle ⟨0, Tag.span⟩ 0 initState) ⟨0, Tag.span⟩ 0).1
      (by decide)⟩

/-! ### C7 -/

/-- C7: unbinding a pair with no recorded Binding never throws, always
removes F as the click listener of E, and does nothing else: no wrapper is
detached and the Registry is untouched. -/
theorem c7_unbind_unbound_removes_click_only (st : State) (e : Element) (f : Nat)
    (h : _getElementBindings st e f = none) :
    _deactivateSingle e f st = removeListener st e EventType.click (Listener.cb f)
    ∧ (_deactivateSingle e f st).boundEvents = st.boundEvents := by
  have h1 : _deactivateSingle e f st = removeListener st e EventType.click (Listener.cb f) := by
    simp [_deactivateSingle, h]
  exact ⟨h1, by rw [h1, removeListener_boundEvents]⟩

/-- C7 witness: unbinding a never-bound pair on the fresh state. -/
theorem c7_unbind_unbound_removes_click_only_witness :
    _getElementBindings initState ⟨0, Tag.span⟩ 5 = none
    ∧ (_deactivateSingle ⟨0, Tag.span⟩ 5 initState
         = removeListener initState ⟨0, Tag.span⟩ EventType.click (Listener.cb 5)
       ∧ (_deactivateSingle ⟨0, Tag.span⟩ 5 initState).boundEvents = initState.boundEvents) :=
  ⟨rfl, c7_unbind_unbound_removes_click_only initState ⟨0, Tag.span⟩ 5 rfl⟩

/-! ### C8 -/

/-- C8: when the host rejects the selector string, both entry points fail
with the DOMException whose message names the operation being attempted
(activate vs deactivate), and the observable state is untouched: the error
is raised before any per-element binding work. -/
theorem c8_invalid_selector_raises (doc : String → Option (List Element)) (s : String)
    (f : Nat) (st : State) (h : doc s = none) :
    activate doc (Target.str s) f st
      = Except.error
          ("activate failed because it was passed an invalid selector string: \x27"
            ++ s ++ "\x27")
    ∧ deactivate doc (Target.str s) f st
      = Except.error
          ("deactivate failed because it was passed an invalid selector string: \x27"
            ++ s ++ "\x27")
    ∧ applyTop doc st ⟨Which.act, Target.str s, f⟩ = st
    ∧ applyTop doc st ⟨Which.deact, Target.str s, f⟩ = st := by
  refine ⟨?_, ?_, ?_, ?_⟩ <;>
    simp [activate, deactivate, _activator, applyTop, h, methodName]

/-- C8 witness: a concrete host that rejects every selector. -/
theorem c8_invalid_selector_raises_witness :
    activate (fun _ => none) (Target.str "x") 0 initState
      = Except.error
          ("activate failed because it was passed an invalid selector string: \x27"
            ++ "x" ++ "\x27")
    ∧ deactivate (fun _ => none) (Target.str "x") 0 initState
      = Except.error
          ("deactivate failed because it was passed an invalid selector string: \x27"
            ++ "x" ++ "\x27")
    ∧ applyTop (fun _ => none) initState ⟨Which.act, Target.str "x", 0⟩ = initState
    ∧ applyTop (fun _ => none) initState ⟨Which.deact, Target.str "x", 0⟩ = initState :=
  c8_invalid_selector_raises (fun _ => none) "x" 0 initState rfl

/-! ### C9 -/

/-- C9: the Space classifier accepts exactly the single-character key " "
and the legacy name "spacebar" in any letter case; the Enter classifier
accepts exactly "enter" case-insensitively; an event whose key is absent or
the empty string is classified as neither, and neither generated wrapper
invokes its callback on such an event. -/
theorem c9_key_classification (key : Option String) :
    (_isSpacebar ⟨key⟩ = true ↔
        key = some " " ∨ ∃ s, key = some s ∧ jsToLowerCase s = "spacebar")
    ∧ (_isEnter ⟨key⟩ = true ↔ ∃ s, key = some s ∧ jsToLowerCase s = "enter")
    ∧ _isSpacebar ⟨none⟩ = false ∧ _isSpacebar ⟨some ""⟩ = false
    ∧ _isEnter ⟨none⟩ = false ∧ _isEnter ⟨some ""⟩ = false
    ∧ (∀ w f, listenerFires (Listener.spacebarWrap w f) ⟨none⟩ = []
        ∧ listenerFires (Listener.enterWrap w f) ⟨none⟩ = []
        ∧ listenerFires (Listener.spacebarWrap w f) ⟨some ""⟩ = []
        ∧ listenerFires (Listener.enterWrap w f) ⟨some ""⟩ = []) := by
  refine ⟨?_, ?_, by decide, by decide, by decide, by decide, ?_⟩
  · cases key with
    | none => simp [_isSpacebar]
    | some s =>
        by_cases hs : s = ""
        · subst hs
          simp only [_isSpacebar, if_pos rfl]
          constructor
          · intro h; exact absurd h (by decide)
          · rintro (h | ⟨s', hs', hl⟩)
            · exact absurd h (by decide)
            · cases hs'; exact absurd hl (by decide)
        · simp [_isSpacebar, hs]
  · cases key with
    | none => simp [_isEnter]
    | some s =>
        by_cases hs : s = ""
        · subst hs
          simp only [_isEnter, if_pos rfl]
          constructor
          · intro h; exact absurd h (by decide)
          · rintro ⟨s', hs', hl⟩
            cases hs'; exact absurd hl (by decide)
        · simp [_isEnter, hs]
  · intro w f
    refine ⟨rfl, rfl, ?_, ?_⟩ <;> simp [listenerFires, _isSpacebar, _isEnter]

/-- C9 witness: the classifiers at concrete mixed-case keys. -/
theorem c9_key_classification_witness :
    _isSpacebar ⟨some "SpaceBar"⟩ = true ∧ _isEnter ⟨some "ENTER"⟩ = true :=
  ⟨(c9_key_classification (some "SpaceBar")).1.mpr (Or.inr ⟨"SpaceBar", rfl, by decide⟩),
   (c9_key_classification (some "ENTER")).2.1.mpr ⟨"ENTER", rfl, by decide⟩⟩

/-! ### C10 -/

/-- C10: a non-string, non-element input that lacks a truthy length or a
forEach method (for example a plain empty object) makes both entry points
return silently: no error, no per-element work, no state change. -/
theorem c10_non_collection_is_silent (doc : String → Option (List Element))
    (lt hf : Bool) (items : List Element) (f : Nat) (st : State)
    (h : (lt && hf) = false) :
    activate doc (Target.coll lt hf items) f st = Except.ok st
    ∧ deactivate doc (Target.coll lt hf items) f st = Except.ok st := by
  constructor <;> simp [activate, deactivate, _activator, h]

/-! ### C2 -/

/-- C2: at every state reachable from the fresh module by any sequence of
top-level bind/unbind calls (against any host document), the shared
Space-scroll-prevention keydown listener is attached to an element exactly
when the Registry records at least one Binding for it under some callback. -/
theorem c2_prevent_listener_iff_some_binding (doc : String → Option (List Element))
    (ops : List TopOp) (e : Element) :
    preventAttached (runTop doc ops) e ↔ recordsSomeBinding (runTop doc ops) e := by
  have hInv := inv_runTop doc ops
  constructor
  · intro hpv
    have hb := (hInv.1 e).mp hpv
    unfold _getElementHasBindings at hb
    cases hm : mapGet (runTop doc ops).boundEvents e with
    | none => rw [hm] at hb; simp at hb
    | some m =>
        have hne : m ≠ [] := hInv.2 (e, m) (mapGet_mem _ _ _ hm)
        cases m with
        | nil => exact absurd rfl hne
        | cons p rest =>
            exact ⟨p :: rest, p.1, p.2, hm, by simp⟩
  · rintro ⟨m, f, b, hm, -⟩
    refine (hInv.1 e).mpr ?_
    unfold _getElementHasBindings
    rw [hm]
    rfl

/-- C2 witness: the invariant instantiated at a concrete run (a bind of a
generic element followed by an unrelated unbind). -/
theorem c2_prevent_listener_iff_some_binding_witness :
    preventAttached
        (runTop (fun _ => none)
          [⟨Which.act, Target.elem ⟨0, Tag.span⟩, 0⟩, ⟨Which.deact, Target.elem ⟨1, Tag.span⟩, 3⟩])
        ⟨0, Tag.span⟩
      ↔ recordsSomeBinding
          (runTop (fun _ => none)
            [⟨Which.act, Target.elem ⟨0, Tag.span⟩, 0⟩,
             ⟨Which.deact, Target.elem ⟨1, Tag.span⟩, 3⟩])
          ⟨0, Tag.span⟩ :=
  c2_prevent_listener_iff_some_binding (fun _ => none)
    [⟨Which.act, Target.elem ⟨0, Tag.span⟩, 0⟩, ⟨Which.deact, Target.elem ⟨1, Tag.span⟩, 3⟩]
    ⟨0, Tag.span⟩

/-! ### C4 -/

theorem fireFilter (l : Listener) (ev : KeyEvent) (f2 : Nat) :
    (listenerFires l ev).filter (fun x => x == f2)
      = if ownerOf l = some f2 then listenerFires l ev else [] := by
  cases l with
  | cb f => by_cases h : f = f2 <;> simp [listenerFires, ownerOf, h]
  | spacebarWrap w f =>
      by_cases h : f = f2 <;> by_cases hs : _isSpacebar ev <;>
        simp [listenerFires, ownerOf, h, hs]
  | enterWrap w f =>
      by_cases h : f = f2 <;> by_cases hs : _isEnter ev <;>
        simp [listenerFires, ownerOf, h, hs]
  | preventSpacebarScroll => simp [listenerFires, ownerOf]

theorem firesList_filter (L : List Listener) (ev : KeyEvent) (f2 : Nat) :
    (firesList L ev).filter (fun x => x == f2)
      = firesList (L.filter (fun l => ownerOf l == some f2)) ev := by
  induction L with
  | nil => simp [firesList]
  | cons l rest ih =>
      rw [firesList, List.filter_append, ih, fireFilter]
      by_cases ho : ownerOf l = some f2
      · simp [List.filter_cons, ho, firesList]
      · simp [List.filter_cons, ho, firesList]

theorem projET_filter_owner (L : List (Element × EventType × Listener)) (e : Element)
    (t : EventType) (f2 : Nat) :
    (projET L e t).filter (fun l => ownerOf l == some f2)
      = projET (L.filter (fun p => ownerOf p.2.2 == some f2)) e t := by
  induction L with
  | nil => rfl
  | cons p rest ih =>
      simp only [projET] at ih ⊢
      by_cases hc : p.1 = e ∧ p.2.1 = t <;> by_cases ho : ownerOf p.2.2 = some f2 <;>
        simp [List.filterMap_cons, List.filter_cons, hc, ho, ih]

theorem fnListeners_cong {st' st : State} (h : st'.listeners = st.listeners) (f : Nat) :
    fnListeners st' f = fnListeners st f := by
  unfold fnListeners; rw [h]

theorem fnListeners_removeListener (st : State) (e : Element) (t : EventType) (l : Listener)
    (f2 : Nat) (h : ownerOf l ≠ some f2) :
    fnListeners (removeListener st e t l) f2 = fnListeners st f2 := by
  unfold fnListeners removeListener
  rw [List.filter_filter]
  refine List.filter_congr ?_
  intro a _
  by_cases hq : ownerOf a.2.2 = some f2
  · have hne : a ≠ (e, t, l) := by
      intro hh
      rw [hh] at hq
      exact h hq
    simp [hq, hne]
  · simp [hq]

theorem fnListeners_forget (e : Element) (f : Nat) (st : State) (f2 : Nat) :
    fnListeners (_forgetElementBindings e f st) f2 = fnListeners st f2 :=
  fnListeners_cong (forget_listeners e f st) f2

/-- Removing a callback's listeners never touches another callback's
attached listeners: `_deactivateSingle e f1` is a frame operation for every
listener owned by `f2 ≠ f1`. -/
theorem deact_fnListeners (st : State) (e : Element) (f1 f2 : Nat) (h : f1 ≠ f2) :
    fnListeners (_deactivateSingle e f1 st) f2 = fnListeners st f2 := by
  have hcb : ownerOf (Listener.cb f1) ≠ some f2 := by simp [ownerOf, h]
  unfold _deactivateSingle
  cases hx : _getElementBindings st e f1 with
  | none => exact fnListeners_removeListener st e _ _ f2 hcb
  | some b =>
      dsimp only
      by_cases hb : e.tag = Tag.button
      · rw [if_pos hb]
        exact fnListeners_removeListener st e _ _ f2 hcb
      · rw [if_neg hb]
        have hstep :
            ∀ (stX : State), fnListeners stX f2 = fnListeners st f2 →
              fnListeners
                (if _getElementHasBindings (_forgetElementBindings e f1 stX) e = true
                 then _forgetElementBindings e f1 stX
                 else removeListener (_forgetElementBindings e f1 stX) e EventType.keydown
                        Listener.preventSpacebarScroll) f2 = fnListeners st f2 := by
          intro stX hX
          split
          · rw [fnListeners_forget, hX]
          · rw [fnListeners_removeListener _ _ _ _ _ (by simp [ownerOf]),
                fnListeners_forget, hX]
        by_cases ha : e.tag = Tag.anchor
        · rw [if_pos ha]
          cases hsw : b.spacebarFn with
          | none =>
              exact hstep _ (fnListeners_removeListener st e _ _ f2 hcb)
          | some w =>
              refine hstep _ ?_
              rw [fnListeners_removeListener _ _ _ _ _ (by simp [ownerOf, h]),
                  fnListeners_removeListener st e _ _ f2 hcb]
        · rw [if_neg ha]
          cases hsw : b.spacebarFn with
          | none =>
              cases hew : b.enterFn with
              | none => exact hstep _ (fnListeners_removeListener st e _ _ f2 hcb)
              | some w2 =>
                  refine hstep _ ?_
                  rw [fnListeners_removeListener _ _ _ _ _ (by simp [ownerOf, h]),
                      fnListeners_removeListener st e _ _ f2 hcb]
          | some w =>
              cases hew : b.enterFn with
              | none =>
                  refine hstep _ ?_
                  rw [fnListeners_removeListener _ _ _ _ _ (by simp [ownerOf, h]),
                      fnListeners_removeListener st e _ _ f2 hcb]
              | some w2 =>
                  refine hstep _ ?_
                  rw [fnListeners_removeListener _ _ _ _ _ (by simp [ownerOf, h]),
                      fnListeners_removeListener _ _ _ _ _ (by simp [ownerOf, h]),
                      fnListeners_removeListener st e _ _ f2 hcb]

/-- If two states agree on the listeners owned by `f2`, every dispatch
invokes `f2` identically in both. -/
theorem dispatch_filter_eq (st' st : State) (f2 : Nat)
    (h : fnListeners st' f2 = fnListeners st f2) (e' : Element) (t : EventType)
    (ev : KeyEvent) :
    (dispatch st' e' t ev).filter (fun x => x == f2)
      = (dispatch st e' t ev).filter (fun x => x == f2) := by
  unfold dispatch
  rw [firesList_filter, firesList_filter, projET_filter_owner, projET_filter_owner]
  unfold fnListeners at h
  rw [h]

/-- C4 counterexample: the claim's Registry clause fails.  After bind(E,F1)
and bind(E,F2) with F1 = 0 and F2 = 1, callback 1's Binding is recorded, but
unbind(E,F1) deletes E's whole per-element record, so F2's Registry record
does not survive unchanged. -/
theorem c4_counterexample_f2_record_removed :
    (_getElementBindings
        (_activateSingle ⟨7, Tag.span⟩ 1 (_activateSingle ⟨7, Tag.span⟩ 0 initState))
        ⟨7, Tag.span⟩ 1).isSome = true
    ∧ _getElementBindings
        (_deactivateSingle ⟨7, Tag.span⟩ 0
          (_activateSingle ⟨7, Tag.span⟩ 1 (_activateSingle ⟨7, Tag.span⟩ 0 initState)))
        ⟨7, Tag.span⟩ 1 = none := by
  decide

/-- C4 (amended): after bind(E,F1) and bind(E,F2) with F1 distinct from F2,
unbind(E,F1) leaves every attached listener belonging to F2 unchanged, so
click, Space keyup and Enter keydown dispatches still invoke F2 exactly as
before (F2's Registry record, however, is deleted together with the rest of
E's per-element record). -/
theorem c4_unbind_leaves_f2_listeners_intact (st0 : State) (e : Element) (f1 f2 : Nat)
    (h : f1 ≠ f2) :
    fnListeners (_deactivateSingle e f1 (_activateSingle e f2 (_activateSingle e f1 st0))) f2
      = fnListeners (_activateSingle e f2 (_activateSingle e f1 st0)) f2
    ∧ ∀ (e' : Element) (t : EventType) (ev : KeyEvent),
        (dispatch (_deactivateSingle e f1 (_activateSingle e f2 (_activateSingle e f1 st0)))
            e' t ev).filter (fun x => x == f2)
          = (dispatch (_activateSingle e f2 (_activateSingle e f1 st0)) e' t ev).filter
              (fun x => x == f2) := by
  have hfn :=
    deact_fnListeners (_activateSingle e f2 (_activateSingle e f1 st0)) e f1 f2 h
  exact ⟨hfn, fun e' t ev => dispatch_filter_eq _ _ f2 hfn e' t ev⟩

/-- C4 witness: the amended theorem at concrete callbacks 0 and 1 on a
generic element, with the dispatch clause instantiated at a Space keyup. -/
theorem c4_unbind_leaves_f2_listeners_intact_witness :
    fnListeners
        (_deactivateSingle ⟨0, Tag.span⟩ 0
          (_activateSingle ⟨0, Tag.span⟩ 1 (_activateSingle ⟨0, Tag.span⟩ 0 initState))) 1
      = fnListeners (_activateSingle ⟨0, Tag.span⟩ 1 (_activateSingle ⟨0, Tag.span⟩ 0 initState)) 1
    ∧ (dispatch
          (_deactivateSingle ⟨0, Tag.span⟩ 0
            (_activateSingle ⟨0, Tag.span⟩ 1 (_activateSingle ⟨0, Tag.span⟩ 0 initState)))
          ⟨0, Tag.span⟩ EventType.keyup ⟨some " "⟩).filter (fun x => x == 1)
        = (dispatch
            (_activateSingle ⟨0, Tag.span⟩ 1 (_activateSingle ⟨0, Tag.span⟩ 0 initState))
            ⟨0, Tag.span⟩ EventType.keyup ⟨some " "⟩).filter (fun x => x == 1) :=
  ⟨(c4_unbind_leaves_f2_listeners_intact initState ⟨0, Tag.span⟩ 0 1 (by decide)).1,
   (c4_unbind_leaves_f2_listeners_intact initState ⟨0, Tag.span⟩ 0 1 (by decide)).2
     ⟨0, Tag.span⟩ EventType.keyup ⟨some " "⟩⟩

/-! ### C5 -/

theorem filter_ne_of_not_mem (L : List (Element × EventType × Listener))
    (x : Element × EventType × Listener) (h : x ∉ L) :
    L.filter (fun p => !(p == x)) = L := by
  apply List.filter_eq_self.mpr
  intro a ha
  have hax : a ≠ x := fun hh => h (hh ▸ ha)
  simp [hax]

theorem getB_remember_fresh (e : Element) (f : Nat) (b : Binding) (st : State)
    (hmg : mapGet st.boundEvents e = none) :
    _getElementBindings (_rememberElementBindings e f b st) e f = some b := by
  unfold _rememberElementBindings
  rw [hmg]
  unfold _getElementBindings
  dsimp only
  rw [mapGet_mapSet_self]
  simp [mapGet]

/-- C5 counterexample: the claim quantifies over every state in which (E,F)
is not bound.  In the state reached by bind(E,F2) alone, (E,F1) is not
bound, yet bind(E,F1) followed by unbind(E,F1) removes the shared
Space-scroll-prevention listener that was attached beforehand (because
unbind erases E's whole record and then believes no binding remains), so
E's listener set is not restored. -/
theorem c5_counterexample_roundtrip_drops_prevent :
    _getElementBindings (_activateSingle ⟨0, Tag.span⟩ 1 initState) ⟨0, Tag.span⟩ 0 = none
    ∧ (⟨0, Tag.span⟩, EventType.keydown, Listener.preventSpacebarScroll)
        ∈ (_activateSingle ⟨0, Tag.span⟩ 1 initState).listeners
    ∧ (⟨0, Tag.span⟩, EventType.keydown, Listener.preventSpacebarScroll)
        ∉ (_deactivateSingle ⟨0, Tag.span⟩ 0
            (_activateSingle ⟨0, Tag.span⟩ 0
              (_activateSingle ⟨0, Tag.span⟩ 1 initState))).listeners := by
  decide

/-- C5 (amended): for every element E and callback F, starting from any
state in which E has no Registry record at all and none of the listeners the
bind would attach is already present (F is not E's click listener, the
shared scroll-prevention listener is not attached to E, and the wrapper
identities about to be generated are unused on E), bind(E,F) followed by
unbind(E,F) restores E's listener list — indeed the whole listener list —
exactly. -/
theorem c5_roundtrip_restores_listeners (st : State) (e : Element) (f : Nat)
    (h1 : (e, EventType.click, Listener.cb f) ∉ st.listeners)
    (h2 : (e, EventType.keydown, Listener.preventSpacebarScroll) ∉ st.listeners)
    (h3 : (e, EventType.keyup, Listener.spacebarWrap st.nextId f) ∉ st.listeners)
    (h4 : (e, EventType.keydown, Listener.enterWrap (st.nextId + 1) f) ∉ st.listeners)
    (h5 : _getElementHasBindings st e = false) :
    (_deactivateSingle e f (_activateSingle e f st)).listeners = st.listeners := by
  have hmg : mapGet st.boundEvents e = none := by
    cases hmg : mapGet st.boundEvents e with
    | none => rfl
    | some m =>
        unfold _getElementHasBindings at h5
        rw [hmg] at h5
        simp at h5
  have hgb : _getElementBindings st e f = none := by
    unfold _getElementBindings
    rw [hmg]
    rfl
  by_cases hb : e.tag = Tag.button
  · have hact : _activateSingle e f st
        = { st with listeners := st.listeners ++ [(e, EventType.click, Listener.cb f)] } := by
      rw [(c3_button_attaches_click_only st e f hb hgb).1]
      unfold addListener
      rw [if_neg h1]
    have hgb2 : _getElementBindings (_activateSingle e f st) e f = none :=
      (c3_button_attaches_click_only st e f hb hgb).2.2
    rw [(c7_unbind_unbound_removes_click_only _ e f hgb2).1, hact]
    show ((st.listeners ++ [(e, EventType.click, Listener.cb f)]).filter
        (fun p => !(p == (e, EventType.click, Listener.cb f)))) = st.listeners
    rw [List.filter_append, filter_ne_of_not_mem _ _ h1]
    simp
  · -- non-button: the bind attaches click, the shared prevent listener,
    -- a Space wrapper then (unless the element is an anchor) an Enter
    -- wrapper, and records the binding; the unbind removes them all.
    have hst1 : addListener st e EventType.click (Listener.cb f)
        = { st with listeners := st.listeners ++ [(e, EventType.click, Listener.cb f)] } := by
      unfold addListener
      rw [if_neg h1]
    have hhb1 : _getElementHasBindings
        { st with listeners := st.listeners ++ [(e, EventType.click, Listener.cb f)] } e
          = false := h5
    have hpv : (e, EventType.keydown, Listener.preventSpacebarScroll)
        ∉ st.listeners ++ [(e, EventType.click, Listener.cb f)] := by
      simp [List.mem_append, h2]
    have hst2 : addListener
        { st with listeners := st.listeners ++ [(e, EventType.click, Listener.cb f)] }
        e EventType.keydown Listener.preventSpacebarScroll
        = { st with listeners :=
              (st.listeners ++ [(e, EventType.click, Listener.cb f)])
                ++ [(e, EventType.keydown, Listener.preventSpacebarScroll)] } := by
      unfold addListener
      rw [if_neg hpv]
    have hsw : (e, EventType.keyup, Listener.spacebarWrap st.nextId f)
        ∉ (st.listeners ++ [(e, EventType.click, Listener.cb f)])
            ++ [(e, EventType.keydown, Listener.preventSpacebarScroll)] := by
      simp [List.mem_append, h3]
    have hst3 : addListener
        { boundEvents := st.boundEvents
          listeners :=
            (st.listeners ++ [(e, EventType.click, Listener.cb f)])
              ++ [(e, EventType.keydown, Listener.preventSpacebarScroll)]
          nextId := st.nextId + 1 }
        e EventType.keyup (Listener.spacebarWrap st.nextId f)
        = { boundEvents := st.boundEvents
            listeners :=
              ((st.listeners ++ [(e, EventType.click, Listener.cb f)])
                ++ [(e, EventType.keydown, Listener.preventSpacebarScroll)])
                ++ [(e, EventType.keyup, Listener.spacebarWrap st.nextId f)]
            nextId := st.nextId + 1 } := by
      unfold addListener
      rw [if_neg hsw]
    by_cases ha : e.tag = Tag.anchor
    · have hact : _activateSingle e f st
          = { boundEvents := mapSet st.boundEvents e [(f, ⟨some st.nextId, none⟩)]
              listeners :=
                ((st.listeners ++ [(e, EventType.click, Listener.cb f)])
                  ++ [(e, EventType.keydown, Listener.preventSpacebarScroll)])
                  ++ [(e, EventType.keyup, Listener.spacebarWrap st.nextId f)]
              nextId := st.nextId + 1 } := by
        simp only [_activateSingle, hgb, Option.isSome_none, Bool.false_eq_true, if_false]
        rw [if_neg hb, hst1]
        simp only [hhb1, Bool.false_eq_true, if_false]
        rw [hst2]
        try dsimp only
        rw [hst3, if_pos ha]
        unfold _rememberElementBindings
        try dsimp only
        rw [hmg]
      have hgb2 : _getElementBindings
          ({ boundEvents := mapSet st.boundEvents e [(f, ⟨some st.nextId, none⟩)]
             listeners :=
               ((st.listeners ++ [(e, EventType.click, Listener.cb f)])
                 ++ [(e, EventType.keydown, Listener.preventSpacebarScroll)])
                 ++ [(e, EventType.keyup, Listener.spacebarWrap st.nextId f)]
             nextId := st.nextId + 1 } : State) e f
            = some ⟨some st.nextId, none⟩ := by
        unfold _getElementBindings
        try dsimp only
        rw [mapGet_mapSet_self]
        simp [mapGet]
      rw [hact]
      unfold _deactivateSingle
      simp only [hgb2]
      rw [if_neg hb]
      try dsimp only
      rw [if_pos ha, hasB_forget_self]
      simp only [Bool.false_eq_true, if_false]
      unfold removeListener
      try dsimp only
      rw [forget_listeners]
      try dsimp only
      simp only [List.filter_append]
      rw [filter_ne_of_not_mem _ _ h1, filter_ne_of_not_mem _ _ h3,
          filter_ne_of_not_mem _ _ h2]
      simp
    · have hew : (e, EventType.keydown, Listener.enterWrap (st.nextId + 1) f)
          ∉ ((st.listeners ++ [(e, EventType.click, Listener.cb f)])
              ++ [(e, EventType.keydown, Listener.preventSpacebarScroll)])
              ++ [(e, EventType.keyup, Listener.spacebarWrap st.nextId f)] := by
        simp [List.mem_append, h4]
      have hst4 : addListener
          { boundEvents := st.boundEvents
            listeners :=
              ((st.listeners ++ [(e, EventType.click, Listener.cb f)])
                ++ [(e, EventType.keydown, Listener.preventSpacebarScroll)])
                ++ [(e, EventType.keyup, Listener.spacebarWrap st.nextId f)]
            nextId := st.nextId + 1 + 1 }
          e EventType.keydown (Listener.enterWrap (st.nextId + 1) f)
          = { boundEvents := st.boundEvents
              listeners :=
                (((st.listeners ++ [(e, EventType.click, Listener.cb f)])
                  ++ [(e, EventType.keydown, Listener.preventSpacebarScroll)])
                  ++ [(e, EventType.keyup, Listener.spacebarWrap st.nextId f)])
                  ++ [(e, EventType.keydown, Listener.enterWrap (st.nextId + 1) f)]
              nextId := st.nextId + 1 + 1 } := by
        unfold addListener
        rw [if_neg hew]
      have hact : _activateSingle e f st
          = { boundEvents :=
                mapSet st.boundEvents e [(f, ⟨some st.nextId, some (st.nextId + 1)⟩)]
              listeners :=
                (((st.listeners ++ [(e, EventType.click, Listener.cb f)])
                  ++ [(e, EventType.keydown, Listener.preventSpacebarScroll)])
                  ++ [(e, EventType.keyup, Listener.spacebarWrap st.nextId f)])
                  ++ [(e, EventType.keydown, Listener.enterWrap (st.nextId + 1) f)]
              nextId := st.nextId + 1 + 1 } := by
        simp only [_activateSingle, hgb, Option.isSome_none, Bool.false_eq_true, if_false]
        rw [if_neg hb, hst1]
        simp only [hhb1, Bool.false_eq_true, if_false]
        rw [hst2]
        try dsimp only
        rw [hst3, if_neg ha]
        try dsimp only
        rw [hst4]
        unfold _rememberElementBindings
        try dsimp only
        rw [hmg]
      have hgb2 : _getElementBindings
          ({ boundEvents :=
               mapSet st.boundEvents e [(f, ⟨some st.nextId, some (st.nextId + 1)⟩)]
             listeners :=
               (((st.listeners ++ [(e, EventType.click, Listener.cb f)])
                 ++ [(e, EventType.keydown, Listener.preventSpacebarScroll)])
                 ++ [(e, EventType.keyup, Listener.spacebarWrap st.nextId f)])
                 ++ [(e, EventType.keydown, Listener.enterWrap (st.nextId + 1) f)]
             nextId := st.nextId + 1 + 1 } : State) e f
            = some ⟨some st.nextId, some (st.nextId + 1)⟩ := by
        unfold _getElementBindings
        try dsimp only
        rw [mapGet_mapSet_self]
        simp [mapGet]
      rw [hact]
      unfold _deactivateSingle
      simp only [hgb2]
      rw [if_neg hb]
      try dsimp only
      rw [if_neg ha]
      try dsimp only
      rw [hasB_forget_self]
      simp only [Bool.false_eq_true, if_false]
      unfold removeListener
      try dsimp only
      rw [forget_listeners]
      try dsimp only
      simp only [List.filter_append]
      rw [filter_ne_of_not_mem _ _ h1, filter_ne_of_not_mem _ _ h3,
          filter_ne_of_not_mem _ _ h4, filter_ne_of_not_mem _ _ h2]
      simp

/-- C5 witness: the amended round-trip theorem on the fresh state with a
generic element. -/
theorem c5_roundtrip_restores_listeners_witness :
    ((⟨0, Tag.span⟩ : Element), EventType.click, Listener.cb 0) ∉ initState.listeners
    ∧ ((⟨0, Tag.span⟩ : Element), EventType.keydown, Listener.preventSpacebarScroll)
        ∉ initState.listeners
    ∧ ((⟨0, Tag.span⟩ : Element), EventType.keyup, Listener.spacebarWrap initState.nextId 0)
        ∉ initState.listeners
    ∧ ((⟨0, Tag.span⟩ : Element), EventType.keydown,
        Listener.enterWrap (initState.nextId + 1) 0) ∉ initState.listeners
    ∧ _getElementHasBindings initState ⟨0, Tag.span⟩ = false
    ∧ (_deactivateSingle ⟨0, Tag.span⟩ 0
          (_activateSingle ⟨0, Tag.span⟩ 0 initState)).listeners = initState.listeners :=
  ⟨by decide, by decide, by decide, by decide, rfl,
   c5_roundtrip_restores_listeners initState ⟨0, Tag.span⟩ 0
     (by decide) (by decide) (by decide) (by decide) rfl⟩

/-- C10 witness: a plain empty object (falsy length, no forEach). -/
theorem c10_non_collection_is_silent_witness :
    activate (fun _ => none) (Target.coll false false []) 0 initState = Except.ok initState
    ∧ deactivate (fun _ => none) (Target.coll false false []) 0 initState
        = Except.ok initState :=
  c10_non_collection_is_silent (fun _ => none) false false [] 0 initState rfl

end ActivateLib
